import Mathlib

/-!
Shallow embedding of the core of `etapai.py` (an interactive file-editing
agent): the path guard (`normalize_path`), the file store (`create_file`,
`read_local_file`), the patch engine (`apply_diff_edit`), the conversation
state (`trim_conversation_history`, `ensure_file_in_context`,
`try_handle_add_command`) and the tool dispatcher
(`execute_function_call_dict`).

Modelling conventions:
* The filesystem is an association list from canonical absolute paths to
  text contents; every `open` in the source resolves its path against the
  process working directory, so reads and writes are keyed by the resolved
  path.  `Path.resolve()` is modelled lexically (no symbolic links).
* Python strings are Lean `String`s manipulated through their `.data`
  character lists; `str.count` and `str.replace(_, _, 1)` are reproduced
  with Python's non-overlapping-occurrence semantics, including the rule
  `s.count("") = len(s) + 1`.
* Python exceptions become explicit `Except`/sum results.  A `PyExc` value
  is an exception caught by a handler in the source; a top-level
  `Except.error` in `execute_function_call_dict` is an exception that
  escapes the function (its `except` clause itself raising).
* `json.loads` is an external library call; it enters the model as an
  explicit function parameter `jsonLoads` of the dispatcher.
* The modelled filesystem contains regular files only, so the
  `os.path.isdir` branch of `/add` (directory ingestion) is never taken;
  the claims under study concern single-file adds.
* Single quote characters occurring inside messages produced by the source
  are written via `sq` (the one-character string holding a quote).
-/

namespace Etapai

/-- The one-character string holding a single-quote, used by the source's
f-strings such as `f"Content of file '{path}'"`. -/
def sq : String := String.mk [Char.ofNat 39]

/-- Python `str.strip()` (whitespace strip at both ends). -/
def pyStrip (s : String) : String :=
  String.mk (((s.data.dropWhile Char.isWhitespace).reverse.dropWhile Char.isWhitespace).reverse)

/-- Python `str.lower()`. -/
def pyLower (s : String) : String :=
  String.mk (s.data.map Char.toLower)

/-- Python `str.startswith`. -/
def pyStartsWith (s pre : String) : Bool :=
  pre.data.isPrefixOf s.data

/-- Python slicing `s[n:]` (by characters). -/
def pyDrop (s : String) (n : Nat) : String :=
  String.mk (s.data.drop n)

/-- Substring search behind Python's `needle in hay`. -/
def containsAux (needle : List Char) : List Char → Bool
  | [] => needle.isPrefixOf []
  | c :: rest => needle.isPrefixOf (c :: rest) || containsAux needle rest

/-- Python `needle in hay` on strings. -/
def strContains (needle hay : String) : Bool :=
  containsAux needle.data hay.data

/-- Fuel-driven body of Python `str.count` for a nonempty pattern: scan left
to right, skipping the whole pattern after each match (non-overlapping).
The fuel is a structural-recursion bound; `s.length` fuel always suffices
because every step consumes at least one character. -/
def pyCountFuel (sub : List Char) : Nat → List Char → Nat
  | 0, _ => 0
  | _ + 1, [] => 0
  | fuel + 1, c :: rest =>
    if sub.isPrefixOf (c :: rest) then 1 + pyCountFuel sub fuel ((c :: rest).drop sub.length)
    else pyCountFuel sub fuel rest

/-- Python `s.count(sub)`: non-overlapping occurrences; an empty pattern
counts `len(s) + 1` times. -/
def pyCount (s sub : List Char) : Nat :=
  if sub = [] then s.length + 1 else pyCountFuel sub s.length s

/-- Body of Python `s.replace(sub, repl, 1)` for a nonempty pattern:
replace the leftmost occurrence only. -/
def pyReplaceAux (sub repl : List Char) : List Char → List Char
  | [] => []
  | c :: rest =>
    if sub.isPrefixOf (c :: rest) then repl ++ (c :: rest).drop sub.length
    else c :: pyReplaceAux sub repl rest

/-- Python `s.replace(sub, repl, 1)`; an empty pattern matches at the start,
so the replacement is prepended. -/
def pyReplace1 (s sub repl : List Char) : List Char :=
  if sub = [] then repl ++ s else pyReplaceAux sub repl s

/-! ## Path model -/

/-- Split a raw path string at `/` separators. -/
def splitSlash (acc : List Char) : List Char → List String
  | [] => [String.mk acc.reverse]
  | c :: rest =>
    if c = '/' then String.mk acc.reverse :: splitSlash [] rest
    else splitSlash (c :: acc) rest

/-- The non-root components of a path: empty components and single-dot
components disappear, as in `pathlib.PurePath`. -/
def splitPath (p : String) : List String :=
  (splitSlash [] p.data).filter (fun c => c != "" && c != ".")

/-- Whether the path string is absolute. -/
def isAbs (p : String) : Bool :=
  match p.data with
  | c :: _ => c = '/'
  | [] => false

/-- `pathlib.Path(p).parts`: the root marker (for an absolute path)
followed by the components. -/
def pyPathParts (p : String) : List String :=
  (if isAbs p then ["/"] else []) ++ splitPath p

/-- Lexical core of `Path.resolve()`: walk the components, popping one
component for each `..`. -/
def resolveGo (acc : List String) : List String → List String
  | [] => acc
  | c :: cs =>
    if c = ".." then resolveGo acc.dropLast cs
    else resolveGo (acc ++ [c]) cs

/-- `Path(p).resolve()` relative to the working directory `cwd` (given as
the component list of an absolute directory), as a component list. -/
def resolveParts (cwd : List String) (p : String) : List String :=
  resolveGo (if isAbs p then [] else cwd) (splitPath p)

/-- Render an absolute component list as a path string. -/
def renderAbs (comps : List String) : String :=
  if comps.isEmpty then "/" else comps.foldl (fun acc c => acc ++ "/" ++ c) ""

/-- The canonical (resolved, absolute) string for a path. -/
def canonStr (cwd : List String) (p : String) : String :=
  renderAbs (resolveParts cwd p)

/-- `normalize_path` from the source: resolve, then reject if the resolved
path still has a `..` component (the error is a Python `ValueError`). -/
def normalize_path (cwd : List String) (path_str : String) : Except String String :=
  let parts := resolveParts cwd path_str
  if ".." ∈ parts then
    Except.error ("Invalid path: " ++ path_str ++ " contains parent directory references")
  else
    Except.ok (renderAbs parts)

/-! ## Exceptions, JSON values, conversation turns, system state -/

/-- The Python exceptions raised and caught by the modelled code. -/
inductive PyExc where
  | ValueError (msg : String)
  | KeyError (key : String)
  | TypeError (msg : String)
  | FileNotFoundError (filename : String)
  | JSONDecodeError (msg : String)
deriving DecidableEq, Repr

/-- Python `str(e)` for the exceptions above (`KeyError` prints its key in
quotes, `FileNotFoundError` prints the strerror with the filename). -/
def pyStr : PyExc → String
  | PyExc.ValueError m => m
  | PyExc.KeyError k => sq ++ k ++ sq
  | PyExc.TypeError m => m
  | PyExc.FileNotFoundError f => "[Errno 2] No such file or directory: " ++ sq ++ f ++ sq
  | PyExc.JSONDecodeError m => m

/-- Whether the exception is an `OSError` (the only class some handlers in
the source catch). -/
def isOSError : PyExc → Bool
  | PyExc.FileNotFoundError _ => true
  | _ => false

/-- A parsed JSON value, as returned by `json.loads`. -/
inductive PyVal where
  | str (s : String)
  | arr (xs : List PyVal)
  | dict (kvs : List (String × PyVal))

/-- Association-list lookup behind Python dict subscription. -/
def dictLookup (kvs : List (String × PyVal)) (k : String) : Option PyVal :=
  match kvs with
  | [] => none
  | (a, v) :: rest => if a = k then some v else dictLookup rest k

/-- Python subscription `v[k]`: `KeyError` on a missing key, `TypeError`
when the value is not a dict. -/
def pyGet (v : PyVal) (k : String) : Except PyExc PyVal :=
  match v with
  | PyVal.dict kvs =>
    match dictLookup kvs k with
    | some x => Except.ok x
    | none => Except.error (PyExc.KeyError k)
  | _ => Except.error (PyExc.TypeError "object is not subscriptable")

/-- Using a JSON value where the source expects a `str`. -/
def expectStr (v : PyVal) : Except PyExc String :=
  match v with
  | PyVal.str s => Except.ok s
  | _ => Except.error (PyExc.TypeError "expected str")

/-- One entry of `conversation_history`.  Assistant tool-call payloads are
abstracted to their `id` strings, which is all the claims refer to. -/
structure Msg where
  role : String
  content : Option String
  tool_calls : List String
  tool_call_id : Option String
deriving DecidableEq, Repr

/-- The in-process state touched by the modelled functions: the process
working directory, the filesystem (canonical absolute path to text
content), and `conversation_history`. -/
structure SysState where
  cwd : List String
  fs : List (String × String)
  conversation : List Msg
deriving DecidableEq, Repr

/-- Filesystem lookup by canonical path. -/
def fsLookup (fs : List (String × String)) (k : String) : Option String :=
  match fs with
  | [] => none
  | (a, v) :: rest => if a = k then some v else fsLookup rest k

/-- Filesystem update: overwrite the entry for `k`, or append a new one. -/
def fsInsert (fs : List (String × String)) (k v : String) : List (String × String) :=
  match fs with
  | [] => [(k, v)]
  | (a, w) :: rest => if a = k then (k, v) :: rest else (a, w) :: fsInsert rest k v

/-! ## File store -/

/-- `read_local_file`: `open(path).read()`, the OS resolving the path
against the working directory.  `none` is a `FileNotFoundError`. -/
def read_local_file (st : SysState) (file_path : String) : Option String :=
  fsLookup st.fs (canonStr st.cwd file_path)

/-- Python `part.startswith('~')`. -/
def startsWithTilde (s : String) : Bool :=
  match s.data with
  | c :: _ => c = '~'
  | [] => false

/-- The checks `create_file` performs before writing, in source order:
a path component starting with `~`, the (dead) `normalize_path` traversal
check, and the 5 MB content ceiling.  `some msg` is the `ValueError`. -/
def createCheck (cwd : List String) (path content : String) : Option String :=
  if (pyPathParts path).any startsWithTilde then
    some "Home directory references not allowed"
  else
    match normalize_path cwd path with
    | Except.error m => some m
    | Except.ok _ =>
      if content.length > 5000000 then some "File content exceeds 5MB size limit"
      else none

/-- Write `content` at the canonical path for `path`. -/
def writeFile (st : SysState) (path content : String) : SysState :=
  { st with fs := fsInsert st.fs (canonStr st.cwd path) content }

/-- `create_file` from the source: run the checks, then create parent
directories and overwrite the file.  The error is a `ValueError` message. -/
def create_file (st : SysState) (path content : String) : Except String SysState :=
  match createCheck st.cwd path content with
  | some m => Except.error m
  | none => Except.ok (writeFile st path content)

/-! ## Patch engine -/

/-- Which branch of `apply_diff_edit` ran: the successful write, the
`FileNotFoundError` handler, or the `ValueError` handler (whose message
distinguishes `Original snippet not found`, `Ambiguous edit: n matches`,
and the `create_file` rejections). -/
inductive DiffReport where
  | applied
  | fileNotFound
  | valueError (msg : String)
deriving DecidableEq, Repr

/-- `apply_diff_edit` from the source: read, count non-overlapping
occurrences, refuse on zero or several, otherwise replace the first
occurrence and write back through `create_file`.  Every failure is caught
inside the function (console reporting only) and leaves the state as it
was. -/
def apply_diff_edit (st : SysState) (path original_snippet new_snippet : String) :
    DiffReport × SysState :=
  match read_local_file st path with
  | none => (DiffReport.fileNotFound, st)
  | some content =>
    let occurrences := pyCount content.data original_snippet.data
    if occurrences = 0 then (DiffReport.valueError "Original snippet not found", st)
    else if occurrences > 1 then
      (DiffReport.valueError ("Ambiguous edit: " ++ toString occurrences ++ " matches"), st)
    else
      let updated := String.mk (pyReplace1 content.data original_snippet.data new_snippet.data)
      match create_file st path updated with
      | Except.error m => (DiffReport.valueError m, st)
      | Except.ok st' => (DiffReport.applied, st')

/-! ## Conversation state -/

/-- The `f"Content of file '{path}'"` marker used both when appending a
file to the conversation and when checking for its presence. -/
def fileMarker (normalized : String) : String :=
  "Content of file " ++ sq ++ normalized ++ sq

/-- A system turn carrying a file's content. -/
def fileContextMsg (normalized content : String) : Msg :=
  { role := "system", content := some (fileMarker normalized ++ ":\n\n" ++ content),
    tool_calls := [], tool_call_id := none }

/-- The generator expression `any(file_marker in msg["content"] for msg in
conversation_history)`: scan in order; a turn whose `content` is `None`
raises `TypeError` at the point it is reached (Python `in` on `None`). -/
def scanMarker (marker : String) : List Msg → Except PyExc Bool
  | [] => Except.ok false
  | m :: rest =>
    match m.content with
    | none => Except.error (PyExc.TypeError "argument of type NoneType is not iterable")
    | some c => if strContains marker c then Except.ok true else scanMarker marker rest

/-- `ensure_file_in_context`: read the file (an `OSError` yields `False`),
then append a file-context system turn unless some turn already contains
the marker.  A `TypeError` from the scan escapes the function. -/
def ensure_file_in_context (st : SysState) (file_path : String) :
    Except PyExc Bool × SysState :=
  let normalized := canonStr st.cwd file_path
  match read_local_file st normalized with
  | none => (Except.ok false, st)
  | some content =>
    match scanMarker (fileMarker normalized) st.conversation with
    | Except.error e => (Except.error e, st)
    | Except.ok true => (Except.ok true, st)
    | Except.ok false =>
      (Except.ok true,
       { st with conversation := st.conversation ++ [fileContextMsg normalized content] })

/-- `try_handle_add_command`: on a `/add ` prefix (checked on the stripped,
lowercased input), normalize the path sliced from the raw input and append
the file's content as a system turn; an `OSError` (missing file) is caught
and reported, and the handler still returns `True`.  A `ValueError` from
`normalize_path` would escape (its check is dead).  Directory targets are
outside this model (see the header). -/
def try_handle_add_command (st : SysState) (user_input : String) :
    Except String (SysState × Bool) :=
  if pyStartsWith (pyLower (pyStrip user_input)) "/add " then
    let path_to_add := pyStrip (pyDrop user_input 5)
    match normalize_path st.cwd path_to_add with
    | Except.error m => Except.error m
    | Except.ok normalized =>
      match read_local_file st normalized with
      | none => Except.ok (st, true)
      | some content =>
        Except.ok
          ({ st with conversation := st.conversation ++ [fileContextMsg normalized content] },
           true)
  else
    Except.ok (st, false)

/-- `trim_conversation_history`: no-op at 20 turns or fewer; otherwise keep
every system turn, truncate the non-system turns to their last 15, and
rebuild the history as all system turns followed by the kept non-system
turns. -/
def trim_conversation_history (history : List Msg) : List Msg :=
  if history.length ≤ 20 then history
  else
    let system_msgs := history.filter (fun m => m.role == "system")
    let other_msgs := history.filter (fun m => !(m.role == "system"))
    let kept_msgs := if other_msgs.length > 15 then other_msgs.drop (other_msgs.length - 15)
                     else other_msgs
    system_msgs ++ kept_msgs

/-- The last `n` elements of a list. -/
def takeLast (n : Nat) (l : List Msg) : List Msg :=
  l.drop (l.length - n)

/-- Every tool-role turn's referenced `tool_call_id` was issued by some
assistant turn present in the conversation. -/
def noOrphanToolTurns (history : List Msg) : Bool :=
  history.all fun m =>
    if m.role == "tool" then
      match m.tool_call_id with
      | some i => history.any (fun a => a.role == "assistant" && a.tool_calls.contains i)
      | none => true
    else true

/-- How many system turns carry the context of the file at `normalized`. -/
def countFileContextTurns (history : List Msg) (normalized : String) : Nat :=
  history.countP fun m =>
    m.role == "system" &&
      (match m.content with
       | some c => strContains (fileMarker normalized) c
       | none => false)

/-! ## Tool dispatcher -/

/-- Python `", ".join`. -/
def joinSep (sep : String) : List String → String
  | [] => ""
  | [x] => x
  | x :: xs => x ++ sep ++ joinSep sep xs

/-- The `"=" * 50` banner of `read_multiple_files`. -/
def eqBanner : String := String.mk (List.replicate 50 '=')

/-- The `read_multiple_files` loop: per-path `try`, catching only
`OSError` inline; a `TypeError`/`ValueError` aborts the whole branch. -/
def runReadMultiple (st : SysState) : List PyVal → List String → Except PyExc String
  | [], results => Except.ok ("\n\n" ++ eqBanner ++ joinSep "\n\n" results)
  | v :: rest, results =>
    match expectStr v with
    | Except.error e => Except.error e
    | Except.ok file_path =>
      match normalize_path st.cwd file_path with
      | Except.error m => Except.error (PyExc.ValueError m)
      | Except.ok normalized =>
        match read_local_file st normalized with
        | none =>
          runReadMultiple st rest
            (results ++ ["Error reading " ++ sq ++ file_path ++ sq ++ ": " ++
              pyStr (PyExc.FileNotFoundError normalized)])
        | some content =>
          runReadMultiple st rest
            (results ++ ["Content of file " ++ sq ++ normalized ++ sq ++ ":\n\n" ++ content])

/-- The `create_multiple_files` loop: sequential `create_file` calls with
no per-item handler, so the first exception aborts the batch, keeping the
writes made so far. -/
def runCreateMultiple (st : SysState) (files : List PyVal) (created_files : List String) :
    Except PyExc String × SysState :=
  match files with
  | [] =>
    (Except.ok ("Successfully created " ++ toString created_files.length ++ " files: " ++
      joinSep ", " created_files), st)
  | fi :: rest =>
    match pyGet fi "path" with
    | Except.error e => (Except.error e, st)
    | Except.ok pv =>
      match expectStr pv with
      | Except.error e => (Except.error e, st)
      | Except.ok path =>
        match pyGet fi "content" with
        | Except.error e => (Except.error e, st)
        | Except.ok cv =>
          match expectStr cv with
          | Except.error e => (Except.error e, st)
          | Except.ok content =>
            match create_file st path content with
            | Except.error m => (Except.error (PyExc.ValueError m), st)
            | Except.ok st' => runCreateMultiple st' rest (created_files ++ [path])

/-- The `if/elif` chain on the operation name inside
`execute_function_call_dict`.  The `Except.error` component is an
exception reaching the enclosing handler; the state component carries any
mutations made before it was raised. -/
def runBranch (function_name : String) (args : PyVal) (st : SysState) :
    Except PyExc String × SysState :=
  if function_name = "read_file" then
    match pyGet args "file_path" with
    | Except.error e => (Except.error e, st)
    | Except.ok pv =>
      match expectStr pv with
      | Except.error e => (Except.error e, st)
      | Except.ok file_path =>
        match normalize_path st.cwd file_path with
        | Except.error m => (Except.error (PyExc.ValueError m), st)
        | Except.ok normalized =>
          match read_local_file st normalized with
          | none => (Except.error (PyExc.FileNotFoundError normalized), st)
          | some content =>
            (Except.ok ("Content of file " ++ sq ++ normalized ++ sq ++ ":\n\n" ++ content), st)
  else if function_name = "read_multiple_files" then
    match pyGet args "file_paths" with
    | Except.error e => (Except.error e, st)
    | Except.ok (PyVal.arr paths) => (runReadMultiple st paths [], st)
    | Except.ok _ => (Except.error (PyExc.TypeError "expected list"), st)
  else if function_name = "create_file" then
    match pyGet args "file_path" with
    | Except.error e => (Except.error e, st)
    | Except.ok pv =>
      match expectStr pv with
      | Except.error e => (Except.error e, st)
      | Except.ok file_path =>
        match pyGet args "content" with
        | Except.error e => (Except.error e, st)
        | Except.ok cv =>
          match expectStr cv with
          | Except.error e => (Except.error e, st)
          | Except.ok content =>
            match create_file st file_path content with
            | Except.error m => (Except.error (PyExc.ValueError m), st)
            | Except.ok st' =>
              (Except.ok ("Successfully created file " ++ sq ++ file_path ++ sq), st')
  else if function_name = "create_multiple_files" then
    match pyGet args "files" with
    | Except.error e => (Except.error e, st)
    | Except.ok (PyVal.arr files) => runCreateMultiple st files []
    | Except.ok _ => (Except.error (PyExc.TypeError "expected list"), st)
  else if function_name = "edit_file" then
    match pyGet args "file_path" with
    | Except.error e => (Except.error e, st)
    | Except.ok fpv =>
      match expectStr fpv with
      | Except.error e => (Except.error e, st)
      | Except.ok file_path =>
        match pyGet args "original_snippet" with
        | Except.error e => (Except.error e, st)
        | Except.ok ov =>
          match expectStr ov with
          | Except.error e => (Except.error e, st)
          | Except.ok original_snippet =>
            match pyGet args "new_snippet" with
            | Except.error e => (Except.error e, st)
            | Except.ok nv =>
              match expectStr nv with
              | Except.error e => (Except.error e, st)
              | Except.ok new_snippet =>
                match ensure_file_in_context st file_path with
                | (Except.error e, st') => (Except.error e, st')
                | (Except.ok false, st') =>
                  (Except.ok ("Error: Could not read file " ++ sq ++ file_path ++ sq ++
                    " for editing"), st')
                | (Except.ok true, st') =>
                  let r := apply_diff_edit st' file_path original_snippet new_snippet
                  (Except.ok ("Successfully edited file " ++ sq ++ file_path ++ sq), r.2)
  else
    (Except.ok ("Unknown function: " ++ function_name), st)

/-- `tool_call_dict["function"]["name"]`, the first statement of the `try`
block. -/
def lookupFunctionName (tool_call_dict : PyVal) : Except PyExc String :=
  match pyGet tool_call_dict "function" with
  | Except.error e => Except.error e
  | Except.ok f =>
    match pyGet f "name" with
    | Except.error e => Except.error e
    | Except.ok n => expectStr n

/-- `tool_call_dict["function"]["arguments"]`. -/
def lookupArgumentsStr (tool_call_dict : PyVal) : Except PyExc String :=
  match pyGet tool_call_dict "function" with
  | Except.error e => Except.error e
  | Except.ok f =>
    match pyGet f "arguments" with
    | Except.error e => Except.error e
    | Except.ok a => expectStr a

/-- `execute_function_call_dict`: one `try` block around name lookup,
argument parsing and the branch, with `except Exception` returning
`f"Error executing {function_name}: {e}"`.  When the very first lookup
raises, `function_name` is unbound and the handler itself raises
`UnboundLocalError`, which escapes to the caller — the outer
`Except.error`.  `jsonLoads` is the external `json.loads`. -/
def execute_function_call_dict (jsonLoads : String → Except PyExc PyVal)
    (tool_call_dict : PyVal) (st : SysState) : Except String (String × SysState) :=
  match lookupFunctionName tool_call_dict with
  | Except.error _ =>
    Except.error ("UnboundLocalError: local variable " ++ sq ++ "function_name" ++ sq ++
      " referenced before assignment")
  | Except.ok function_name =>
    match lookupArgumentsStr tool_call_dict with
    | Except.error e => Except.ok ("Error executing " ++ function_name ++ ": " ++ pyStr e, st)
    | Except.ok argStr =>
      match jsonLoads argStr with
      | Except.error e => Except.ok ("Error executing " ++ function_name ++ ": " ++ pyStr e, st)
      | Except.ok args =>
        match runBranch function_name args st with
        | (Except.error e, st') =>
          Except.ok ("Error executing " ++ function_name ++ ": " ++ pyStr e, st')
        | (Except.ok result, st') => Except.ok (result, st')

/-! ## Concrete inputs used by the counterexamples and witnesses -/

/-- A plain user turn. -/
def msgU : Msg := { role := "user", content := some "u", tool_calls := [], tool_call_id := none }

/-- An assistant turn that issued the tool call `call_1` (content `None`,
as the source stores it for pure tool-call turns). -/
def msgA : Msg :=
  { role := "assistant", content := none, tool_calls := ["call_1"], tool_call_id := none }

/-- The tool turn answering `call_1`. -/
def msgT : Msg :=
  { role := "tool", content := some "result", tool_calls := [], tool_call_id := some "call_1" }

/-- The initial system-prompt turn. -/
def msgS : Msg :=
  { role := "system", content := some "prompt", tool_calls := [], tool_call_id := none }

/-- A 21-turn conversation whose assistant tool-call turn sits just before
the trim cutoff while its tool answer sits just after it. -/
def orphanConv : List Msg :=
  msgS :: msgU :: msgU :: msgU :: msgU :: msgA :: msgT :: List.replicate 14 msgU

/-- A 21-turn conversation interleaving system turns with dialogue:
7 system turns, 14 non-system turns. -/
def interleavedConv : List Msg :=
  msgS :: msgU :: msgS :: msgU :: msgS :: msgU :: msgS :: msgU :: msgS :: msgU ::
    msgS :: msgU :: msgS :: List.replicate 8 msgU

/-- A state whose only file lives under a directory literally named `~d`. -/
def stTilde : SysState := { cwd := ["w"], fs := [("/w/~d/f", "a")], conversation := [] }

/-- A state holding one empty file. -/
def stEmptyFile : SysState := { cwd := ["w"], fs := [("/w/f", "")], conversation := [] }

/-- A state holding one file with content `ab`. -/
def stAb : SysState := { cwd := ["w"], fs := [("/w/f", "ab")], conversation := [] }

/-- A state holding one file with content `aa`. -/
def stAa : SysState := { cwd := ["w"], fs := [("/w/f", "aa")], conversation := [msgS] }

/-- The starting state for the `/add` experiments. -/
def stAdd : SysState := { cwd := ["w"], fs := [("/w/f", "x")], conversation := [msgS] }

/-- A `tool_call_dict` whose `function/name` fields are present. -/
def tcd (name : String) : PyVal :=
  PyVal.dict [("function", PyVal.dict [("name", PyVal.str name), ("arguments", PyVal.str "{}")])]

/-- A `json.loads` stub returning a fixed parsed value for every payload. -/
def constLoads (v : PyVal) : String → Except PyExc PyVal := fun _ => Except.ok v

/-- The parsed arguments of a `create_multiple_files` call. -/
def filesArgs (files : List (String × String)) : PyVal :=
  PyVal.dict [("files", PyVal.arr (files.map fun e =>
    PyVal.dict [("path", PyVal.str e.1), ("content", PyVal.str e.2)]))]

/-- The parsed arguments of an `edit_file` call. -/
def editArgs (fp orig new : String) : PyVal :=
  PyVal.dict [("file_path", PyVal.str fp), ("original_snippet", PyVal.str orig),
    ("new_snippet", PyVal.str new)]

/-- `stAdd` after one `/add /w/f` (or one successful edit precondition). -/
def stAdd1 : SysState :=
  { stAdd with conversation := stAdd.conversation ++ [fileContextMsg "/w/f" "x"] }

/-- `stAdd1` after a second `/add /w/f`. -/
def stAdd2 : SysState :=
  { stAdd1 with conversation := stAdd1.conversation ++ [fileContextMsg "/w/f" "x"] }

/-- `stAa` after `edit_file` pulled the file into context. -/
def stAa1 : SysState :=
  { stAa with conversation := stAa.conversation ++ [fileContextMsg "/w/f" "aa"] }

/-- A three-entry `create_multiple_files` batch whose middle entry has a
path component starting with `~`. -/
def batchFiles : List (String × String) := [("a", "1"), ("~b/x", "2"), ("c", "3")]

/-- The empty starting state for the batch experiments. -/
def stBatch : SysState := { cwd := ["w"], fs := [], conversation := [] }

/-- `stBatch` after only the first batch entry was written. -/
def stBatch1 : SysState := { cwd := ["w"], fs := [("/w/a", "1")], conversation := [] }

/-! ## Helper lemmas -/

theorem isPrefixOf_append_self (l r : List Char) : l.isPrefixOf (l ++ r) = true := by
  rw [List.isPrefixOf_iff_prefix]
  exact List.prefix_append l r

theorem containsAux_append_self (n r : List Char) : containsAux n (n ++ r) = true := by
  cases hnr : n ++ r with
  | nil =>
    have hn : n = [] := by
      cases n with
      | nil => rfl
      | cons c cs => simp at hnr
    subst hn
    simp [containsAux]
  | cons c rest =>
    rw [containsAux, ← hnr, isPrefixOf_append_self, Bool.true_or]

theorem strContains_append_self (m rest : String) : strContains m (m ++ rest) = true := by
  unfold strContains
  rw [String.data_append]
  exact containsAux_append_self m.data rest.data

theorem scanMarker_append_of_false (m : String) (conv rest : List Msg)
    (h : scanMarker m conv = Except.ok false) :
    scanMarker m (conv ++ rest) = scanMarker m rest := by
  induction conv with
  | nil => rfl
  | cons x conv ih =>
    cases hc : x.content with
    | none => simp [scanMarker, hc] at h
    | some c =>
      by_cases hcc : strContains m c
      · simp [scanMarker, hc, hcc] at h
      · simp only [scanMarker, hc, hcc, List.cons_append, Bool.false_eq_true, if_false] at h ⊢
        exact ih h

theorem trim_eq_append (h : List Msg) (hlen : 20 < h.length) :
    trim_conversation_history h =
      h.filter (fun m => m.role == "system") ++
        takeLast 15 (h.filter (fun m => !(m.role == "system"))) := by
  unfold trim_conversation_history takeLast
  rw [if_neg (by omega)]
  dsimp only
  by_cases hl : (h.filter (fun m => !(m.role == "system"))).length > 15
  · rw [if_pos hl]
  · rw [if_neg hl]
    have h0 : (h.filter (fun m => !(m.role == "system"))).length - 15 = 0 := by omega
    rw [h0, List.drop_zero]

theorem dotdot_not_mem_resolveGo (cs : List String) (acc : List String) (h : ".." ∉ acc) :
    ".." ∉ resolveGo acc cs := by
  induction cs generalizing acc with
  | nil => simpa [resolveGo] using h
  | cons c cs ih =>
    rw [resolveGo]
    by_cases hc : c = ".."
    · rw [if_pos hc]
      exact ih _ (fun hm => h (List.dropLast_subset _ hm))
    · rw [if_neg hc]
      refine ih _ (fun hm => ?_)
      rcases List.mem_append.mp hm with h1 | h2
      · exact h h1
      · rw [List.mem_singleton] at h2
        exact hc h2.symm

theorem dotdot_not_mem_resolveParts (cwd : List String) (p : String) (h : ".." ∉ cwd) :
    ".." ∉ resolveParts cwd p := by
  unfold resolveParts
  apply dotdot_not_mem_resolveGo
  by_cases hA : isAbs p
  · simp [hA]
  · simp [hA, h]

theorem normalize_path_ok (cwd : List String) (p : String) (h : ".." ∉ cwd) :
    normalize_path cwd p = Except.ok (canonStr cwd p) := by
  unfold normalize_path canonStr
  rw [if_neg (dotdot_not_mem_resolveParts cwd p h)]

theorem createCheck_eq_none (cwd : List String) (path content : String)
    (htilde : (pyPathParts path).any startsWithTilde = false)
    (hcwd : ".." ∉ cwd) (hsize : content.length ≤ 5000000) :
    createCheck cwd path content = none := by
  unfold createCheck
  rw [htilde]
  rw [if_neg (by simp)]
  rw [normalize_path_ok cwd path hcwd]
  rw [if_neg (by omega)]

theorem create_file_ok (st : SysState) (path content : String)
    (h : createCheck st.cwd path content = none) :
    create_file st path content = Except.ok (writeFile st path content) := by
  unfold create_file
  rw [h]

/-! ## Claims -/

/-- C2: the path guard does not behave as specified: `normalize_path`
resolves the path before checking for `..`, and `Path.resolve` has already
eliminated every parent-directory segment, so `normalize("../../etc/passwd")`
succeeds with `/etc/passwd` instead of failing with `InvalidPath`; no check
for a home-directory shorthand exists in `normalize_path` at all, so
`normalize("~/secret")` succeeds as well.  Only the claim's positive part
(`a/b/../c` resolves inside the tree) holds. -/
theorem normalize_path_accepts_traversal_and_home :
    normalize_path ["home", "user"] "../../etc/passwd" = Except.ok "/etc/passwd" ∧
    normalize_path ["home", "user"] "~/secret" = Except.ok "/home/user/~/secret" ∧
    normalize_path ["home", "user"] "a/b/../c" = Except.ok "/home/user/a/c" :=
  ⟨rfl, rfl, rfl⟩

/-- C4: trimming does not preserve tool-call sequences, contrary to the
source docstring: on a 21-turn conversation whose assistant tool-call turn
sits just outside the kept window while its tool answer sits inside,
`trim_conversation_history` keeps the tool turn and drops the assistant
turn that issued its `tool_call_id`, leaving an orphaned tool turn. -/
theorem trim_creates_orphan_tool_turn :
    noOrphanToolTurns orphanConv = true ∧
    noOrphanToolTurns (trim_conversation_history orphanConv) = false :=
  ⟨rfl, rfl⟩

/-- C9: the dispatcher is not total.  A `tool_call_dict` without the
`function`/`name` fields raises `KeyError` before `function_name` is
bound, and the `except` handler itself then raises `UnboundLocalError`,
which propagates to the caller instead of producing a result string.  The
claim's other two legs hold: an unknown operation name yields an
`Unknown function` result and an unparseable payload yields an
`Error executing` result. -/
theorem dispatch_missing_function_field_propagates :
    execute_function_call_dict (constLoads (PyVal.dict [])) (PyVal.dict []) stBatch =
      Except.error ("UnboundLocalError: local variable " ++ sq ++ "function_name" ++ sq ++
        " referenced before assignment") ∧
    execute_function_call_dict (constLoads (PyVal.dict [])) (tcd "frobnicate") stBatch =
      Except.ok ("Unknown function: frobnicate", stBatch) ∧
    execute_function_call_dict
        (fun _ => Except.error (PyExc.JSONDecodeError "Expecting value: line 1 column 1 (char 0)"))
        (tcd "read_file") stBatch =
      Except.ok ("Error executing read_file: Expecting value: line 1 column 1 (char 0)", stBatch) :=
  ⟨rfl, rfl, rfl⟩

/-- C10: whenever trimming actually happens (more than 20 turns), the
conversation is rebuilt as every system turn first — in their original
order — followed by the kept non-system turns, so system turns appended
mid-dialogue are hoisted ahead of the remaining dialogue turns. -/
theorem trim_hoists_system_turns (h : List Msg) (hlen : 20 < h.length) :
    trim_conversation_history h =
      h.filter (fun m => m.role == "system") ++
        takeLast 15 (h.filter (fun m => !(m.role == "system"))) :=
  trim_eq_append h hlen

/-- Witness for C10 on a 21-turn conversation with seven interleaved
system turns. -/
theorem trim_hoists_system_turns_witness :
    trim_conversation_history interleavedConv =
      interleavedConv.filter (fun m => m.role == "system") ++
        takeLast 15 (interleavedConv.filter (fun m => !(m.role == "system"))) :=
  trim_hoists_system_turns interleavedConv (by decide)

/-- C5: `trim_conversation_history` is the identity at 20 turns or fewer;
above that it keeps every system turn in original relative order and keeps
exactly the most recent 15 non-system turns (all of them when fewer than
15 exist) in original relative order, discarding the older ones. -/
theorem trim_policy_spec (h : List Msg) :
    (h.length ≤ 20 → trim_conversation_history h = h) ∧
    (20 < h.length →
      (trim_conversation_history h).filter (fun m => m.role == "system") =
          h.filter (fun m => m.role == "system") ∧
        (trim_conversation_history h).filter (fun m => !(m.role == "system")) =
          takeLast 15 (h.filter (fun m => !(m.role == "system")))) := by
  constructor
  · intro hle
    unfold trim_conversation_history
    rw [if_pos hle]
  · intro hgt
    rw [trim_eq_append h hgt]
    have hsysall : ∀ a ∈ h.filter (fun m => m.role == "system"), (a.role == "system") = true :=
      fun a ha => (List.mem_filter.mp ha).2
    have hkeptall : ∀ a ∈ takeLast 15 (h.filter (fun m => !(m.role == "system"))),
        (!(a.role == "system")) = true :=
      fun a ha => (List.mem_filter.mp (List.mem_of_mem_drop ha)).2
    have e1 : (h.filter (fun m => m.role == "system")).filter (fun m => m.role == "system") =
        h.filter (fun m => m.role == "system") :=
      List.filter_eq_self.mpr hsysall
    have e2 : (takeLast 15 (h.filter (fun m => !(m.role == "system")))).filter
        (fun m => m.role == "system") = [] :=
      List.filter_eq_nil_iff.mpr (fun a ha => by simpa using hkeptall a ha)
    have e3 : (h.filter (fun m => m.role == "system")).filter
        (fun m => !(m.role == "system")) = [] :=
      List.filter_eq_nil_iff.mpr (fun a ha => by simpa using hsysall a ha)
    have e4 : (takeLast 15 (h.filter (fun m => !(m.role == "system")))).filter
        (fun m => !(m.role == "system")) =
        takeLast 15 (h.filter (fun m => !(m.role == "system"))) :=
      List.filter_eq_self.mpr hkeptall
    constructor
    · rw [List.filter_append, e1, e2, List.append_nil]
    · rw [List.filter_append, e3, e4, List.nil_append]

/-- Witness for C5: the no-op case on a one-turn conversation and the
trimming case on a 21-turn conversation. -/
theorem trim_policy_spec_witness :
    trim_conversation_history [msgS] = [msgS] ∧
    ((trim_conversation_history orphanConv).filter (fun m => m.role == "system") =
        orphanConv.filter (fun m => m.role == "system") ∧
      (trim_conversation_history orphanConv).filter (fun m => !(m.role == "system")) =
        takeLast 15 (orphanConv.filter (fun m => !(m.role == "system")))) :=
  ⟨(trim_policy_spec [msgS]).1 (by decide), (trim_policy_spec orphanConv).2 (by decide)⟩

/-- C1 counterexample: a file whose path has a component starting with `~`
and whose content holds the snippet exactly once is still not rewritten —
`create_file` rejects the path, `apply_diff_edit` catches the `ValueError`,
and the filesystem is unchanged — so "rewrites iff exactly one occurrence"
fails in the left-to-right direction the claim states. -/
theorem apply_diff_edit_unique_but_unwritten :
    pyCount "a".data "a".data = 1 ∧
    apply_diff_edit stTilde "~d/f" "a" "b" =
      (DiffReport.valueError "Home directory references not allowed", stTilde) :=
  ⟨rfl, rfl⟩

/-- C1 (amended): for a readable file whose path has no component starting
with `~`, under a traversal-free working directory and the 5 MB result
ceiling, `apply_diff_edit` rewrites the file iff the snippet occurs exactly
once: zero occurrences report `Original snippet not found` and leave the
state byte-identical, several occurrences report `Ambiguous edit: n
matches` and leave the state byte-identical, and exactly one occurrence
replaces that occurrence and writes the result back. -/
theorem apply_diff_edit_occurrence_spec (st : SysState) (path S N content : String)
    (hread : read_local_file st path = some content)
    (htilde : (pyPathParts path).any startsWithTilde = false)
    (hcwd : ".." ∉ st.cwd)
    (hsize : (pyReplace1 content.data S.data N.data).length ≤ 5000000) :
    (pyCount content.data S.data = 0 →
      apply_diff_edit st path S N = (DiffReport.valueError "Original snippet not found", st)) ∧
    (1 < pyCount content.data S.data →
      apply_diff_edit st path S N =
        (DiffReport.valueError
          ("Ambiguous edit: " ++ toString (pyCount content.data S.data) ++ " matches"), st)) ∧
    (pyCount content.data S.data = 1 →
      apply_diff_edit st path S N =
        (DiffReport.applied,
         writeFile st path (String.mk (pyReplace1 content.data S.data N.data)))) := by
  refine ⟨fun h0 => ?_, fun h2 => ?_, fun h1 => ?_⟩
  · unfold apply_diff_edit
    rw [hread]
    dsimp only
    rw [if_pos h0]
  · unfold apply_diff_edit
    rw [hread]
    dsimp only
    rw [if_neg (by omega), if_pos h2]
  · unfold apply_diff_edit
    rw [hread]
    dsimp only
    rw [if_neg (by omega), if_neg (by omega)]
    have hcf := create_file_ok st path (String.mk (pyReplace1 content.data S.data N.data))
      (createCheck_eq_none st.cwd path (String.mk (pyReplace1 content.data S.data N.data))
        htilde hcwd hsize)
    rw [hcf]

/-- Witness for C1 (amended): the three occurrence cases on concrete
two-character files. -/
theorem apply_diff_edit_occurrence_spec_witness :
    apply_diff_edit stAb "/w/f" "z" "y" =
      (DiffReport.valueError "Original snippet not found", stAb) ∧
    apply_diff_edit stAa "/w/f" "a" "y" =
      (DiffReport.valueError
        ("Ambiguous edit: " ++ toString (pyCount "aa".data "a".data) ++ " matches"), stAa) ∧
    apply_diff_edit stAb "/w/f" "a" "y" =
      (DiffReport.applied,
       writeFile stAb "/w/f" (String.mk (pyReplace1 "ab".data "a".data "y".data))) :=
  ⟨(apply_diff_edit_occurrence_spec stAb "/w/f" "z" "y" "ab" rfl rfl (by decide)
      (by decide)).1 (by decide),
   ((apply_diff_edit_occurrence_spec stAa "/w/f" "a" "y" "aa" rfl rfl (by decide)
      (by decide)).2).1 (by decide),
   ((apply_diff_edit_occurrence_spec stAb "/w/f" "a" "y" "ab" rfl rfl (by decide)
      (by decide)).2).2 (by decide)⟩

/-- C3 counterexample: on a file whose content is empty, an empty original
snippet is counted exactly once (`"".count("") == 1`), so the patch is not
rejected as ambiguous — the file is rewritten to the new snippet. -/
theorem apply_diff_edit_empty_snippet_empty_file_rewrites :
    apply_diff_edit stEmptyFile "/w/f" "" "x" =
      (DiffReport.applied, { cwd := ["w"], fs := [("/w/f", "x")], conversation := [] }) :=
  rfl

/-- C3 (amended): for every file whose content is nonempty, an empty
original snippet matches `length + 1` times and is therefore rejected as
`Ambiguous edit`, leaving the state byte-identical; only on an empty file
does the empty snippet count as a unique match and rewrite the file. -/
theorem apply_diff_edit_empty_snippet_nonempty_ambiguous
    (st : SysState) (path content N : String)
    (hread : read_local_file st path = some content) (hne : content ≠ "") :
    apply_diff_edit st path "" N =
      (DiffReport.valueError
        ("Ambiguous edit: " ++ toString (content.length + 1) ++ " matches"), st) := by
  unfold apply_diff_edit
  rw [hread]
  dsimp only
  have hdata : content.data ≠ [] := by
    intro hd
    apply hne
    cases content with
    | mk l => cases hd; rfl
  have hcount : pyCount content.data "".data = content.data.length + 1 := by
    unfold pyCount
    rw [if_pos rfl]
  have hpos : 0 < content.data.length := List.length_pos.mpr hdata
  rw [hcount]
  rw [if_neg (by omega), if_pos (by omega)]
  rfl

/-- Witness for C3 (amended) on a two-character file. -/
theorem apply_diff_edit_empty_snippet_nonempty_ambiguous_witness :
    apply_diff_edit stAb "/w/f" "" "x" =
      (DiffReport.valueError
        ("Ambiguous edit: " ++ toString (("ab" : String).length + 1) ++ " matches"), stAb) :=
  apply_diff_edit_empty_snippet_nonempty_ambiguous stAb "/w/f" "ab" "x" rfl (by decide)

/-- C6 counterexample: the `/add` command appends a file-context system
turn unconditionally, so issuing `/add /w/f` twice leaves two system turns
carrying that file's content — not exactly one. -/
theorem add_command_duplicates_file_turn :
    try_handle_add_command stAdd "/add /w/f" = Except.ok (stAdd1, true) ∧
    try_handle_add_command stAdd1 "/add /w/f" = Except.ok (stAdd2, true) ∧
    countFileContextTurns stAdd2.conversation "/w/f" = 2 :=
  ⟨rfl, rfl, rfl⟩

/-- C6 (amended): re-adding through the edit precondition is idempotent —
once `ensure_file_in_context` has succeeded, running it again finds the
file marker in the appended system turn and leaves the conversation
unchanged — but the `/add` command has no such check and duplicates the
turn. -/
theorem ensure_file_in_context_idempotent (st : SysState) (fp : String) (st1 : SysState)
    (h : ensure_file_in_context st fp = (Except.ok true, st1)) :
    ensure_file_in_context st1 fp = (Except.ok true, st1) := by
  unfold ensure_file_in_context read_local_file at h ⊢
  dsimp only at h ⊢
  cases hr : fsLookup st.fs (canonStr st.cwd (canonStr st.cwd fp)) with
  | none =>
    rw [hr] at h
    exact absurd h (by simp)
  | some content =>
    rw [hr] at h
    dsimp only at h
    cases hs : scanMarker (fileMarker (canonStr st.cwd fp)) st.conversation with
    | error e =>
      rw [hs] at h
      exact absurd h (by simp)
    | ok b =>
      cases b with
      | true =>
        rw [hs] at h
        have hst : st = st1 := congrArg Prod.snd h
        subst hst
        rw [hr, hs]
      | false =>
        rw [hs] at h
        have hst :
            ({ st with conversation :=
                st.conversation ++ [fileContextMsg (canonStr st.cwd fp) content] } : SysState) =
              st1 :=
          congrArg Prod.snd h
        subst hst
        dsimp only
        rw [hr]
        dsimp only
        rw [scanMarker_append_of_false _ _ _ hs]
        have hcontains : strContains (fileMarker (canonStr st.cwd fp))
            (fileMarker (canonStr st.cwd fp) ++ ":\n\n" ++ content) = true := by
          unfold strContains
          have hdata : (fileMarker (canonStr st.cwd fp) ++ ":\n\n" ++ content).data =
              (fileMarker (canonStr st.cwd fp)).data ++ (":\n\n".data ++ content.data) := by
            simp [List.append_assoc]
          rw [hdata]
          exact containsAux_append_self _ _
        unfold scanMarker fileContextMsg
        dsimp only
        rw [if_pos hcontains]

/-- Witness for C6 (amended): one successful `ensure_file_in_context`
followed by a second call that leaves the state unchanged. -/
theorem ensure_file_in_context_idempotent_witness :
    ensure_file_in_context stAdd "/w/f" = (Except.ok true, stAdd1) ∧
    ensure_file_in_context stAdd1 "/w/f" = (Except.ok true, stAdd1) :=
  ⟨rfl, ensure_file_in_context_idempotent stAdd "/w/f" stAdd1 rfl⟩

/-- C7 counterexample: in a three-file batch whose second entry has a
path component starting with `~`, the `create_multiple_files` loop writes
the first file, then the `create_file` exception aborts the loop: the
third file is never written and the result text is a single error message,
not a per-entry enumeration. -/
theorem create_multiple_files_aborts_after_failure :
    execute_function_call_dict (constLoads (filesArgs batchFiles))
        (tcd "create_multiple_files") stBatch =
      Except.ok ("Error executing create_multiple_files: Home directory references not allowed",
        stBatch1) ∧
    fsLookup stBatch1.fs (canonStr stBatch1.cwd "c") = none ∧
    fsLookup stBatch1.fs (canonStr stBatch1.cwd "a") = some "1" :=
  ⟨rfl, rfl, rfl⟩

theorem runCreateMultiple_first_failure (cwd : List String)
    (pre : List (String × String)) (bp bc m : String) (post : List (String × String))
    (hpre : ∀ e ∈ pre, createCheck cwd e.1 e.2 = none)
    (hbad : createCheck cwd bp bc = some m) :
    ∀ (st : SysState) (created : List String), st.cwd = cwd →
      runCreateMultiple st ((pre ++ (bp, bc) :: post).map fun e =>
          PyVal.dict [("path", PyVal.str e.1), ("content", PyVal.str e.2)]) created =
        (Except.error (PyExc.ValueError m),
         pre.foldl (fun s e => writeFile s e.1 e.2) st) := by
  induction pre with
  | nil =>
    intro st created hst
    dsimp only [List.nil_append, List.map, List.foldl]
    unfold runCreateMultiple
    simp [pyGet, dictLookup, expectStr, create_file, hst, hbad]
  | cons e pre ih =>
    intro st created hst
    obtain ⟨p, c⟩ := e
    have hch : createCheck cwd p c = none := hpre (p, c) (List.mem_cons_self _ _)
    dsimp only [List.cons_append, List.map, List.foldl]
    unfold runCreateMultiple
    simp [pyGet, dictLookup, expectStr, create_file, hst, hch]
    simpa using ih (fun e' he' => hpre e' (List.mem_cons_of_mem _ he'))
      (writeFile st p c) (created ++ [p]) hst

/-- C7 (amended): every batch entry before the first failing one is
written and kept (no rollback), the failing entry aborts the loop so later
entries are never attempted, and the dispatcher returns a single
`Error executing create_multiple_files` text carrying only the failing
entry's message instead of enumerating every entry's outcome. -/
theorem create_multiple_files_partial_write_spec
    (st : SysState) (jl : String → Except PyExc PyVal)
    (pre : List (String × String)) (bp bc m : String) (post : List (String × String))
    (hjl : jl "{}" = Except.ok (filesArgs (pre ++ (bp, bc) :: post)))
    (hpre : ∀ e ∈ pre, createCheck st.cwd e.1 e.2 = none)
    (hbad : createCheck st.cwd bp bc = some m) :
    execute_function_call_dict jl (tcd "create_multiple_files") st =
      Except.ok ("Error executing create_multiple_files: " ++ m,
        pre.foldl (fun s e => writeFile s e.1 e.2) st) := by
  unfold execute_function_call_dict
  have hname : lookupFunctionName (tcd "create_multiple_files") =
      Except.ok "create_multiple_files" := rfl
  have hargs : lookupArgumentsStr (tcd "create_multiple_files") = Except.ok "{}" := rfl
  rw [hname]
  dsimp only
  rw [hargs]
  dsimp only
  rw [hjl]
  dsimp only
  unfold runBranch
  rw [if_neg (by decide), if_neg (by decide), if_neg (by decide), if_pos rfl]
  have hget : pyGet (filesArgs (pre ++ (bp, bc) :: post)) "files" =
      Except.ok (PyVal.arr ((pre ++ (bp, bc) :: post).map fun e =>
        PyVal.dict [("path", PyVal.str e.1), ("content", PyVal.str e.2)])) := rfl
  rw [hget]
  dsimp only
  rw [runCreateMultiple_first_failure st.cwd pre bp bc m post hpre hbad st [] rfl]
  rfl

/-- Witness for C7 (amended) on the three-file batch with the failing
middle entry. -/
theorem create_multiple_files_partial_write_spec_witness :
    execute_function_call_dict
        (constLoads (filesArgs ([("a", "1")] ++ ("~b/x", "2") :: [("c", "3")])))
        (tcd "create_multiple_files") stBatch =
      Except.ok ("Error executing create_multiple_files: Home directory references not allowed",
        [("a", "1")].foldl (fun s e => writeFile s e.1 e.2) stBatch) :=
  create_multiple_files_partial_write_spec stBatch
    (constLoads (filesArgs ([("a", "1")] ++ ("~b/x", "2") :: [("c", "3")])))
    [("a", "1")] "~b/x" "2" "Home directory references not allowed" [("c", "3")]
    rfl (by decide) (by decide)

/-- C8: when the patch engine fails — here `SnippetNotFound`, the snippet
occurring zero times — `apply_diff_edit` swallows the error (console
printing only) and the `edit_file` branch of the dispatcher still returns
`Successfully edited file ...` as the tool-call result text, with the
filesystem unchanged; the expected/actual details never reach the result
text. -/
theorem edit_file_reports_success_on_failed_patch :
    pyCount "aa".data "b".data = 0 ∧
    execute_function_call_dict (constLoads (editArgs "/w/f" "b" "c")) (tcd "edit_file") stAa =
      Except.ok ("Successfully edited file " ++ sq ++ "/w/f" ++ sq, stAa1) ∧
    stAa1.fs = stAa.fs :=
  ⟨rfl, rfl, rfl⟩

end Etapai
